import Mathlib

/-!
Verification of the sign-in challenge orchestrator of this repository.

The entry points `signInWithUserPassword` (src/packages/auth/src/providers/
cognito/apis/signInWithUserPassword.ts) and `signInWithCustomSRPAuth`
(src/unnamed/part_002) are embedded as pure Lean functions with explicit
state passing: the process-wide Active Sign-In State store is threaded as an
argument and returned in the outcome, the RPC flow function is an oracle
argument giving the outcome of each successive invocation, and side effects
(token cache handoff invocations, network attempts, Hub events) are recorded
in the outcome. Helpers that live outside src/ (signInHelpers, signInStore,
the crypto engine) are modelled from the spec and say so in their doc
comments.
-/

/-- A service-level error surfaced by the identity provider or by a helper;
the orchestrator classifies it by `name` (spec section 4.1 step 6). -/
structure SrvError where
  name : String
  message : String
  deriving DecidableEq, Repr

/-- New-device metadata carried inside a terminal `AuthenticationResult`. -/
structure NewDeviceMetadataType where
  DeviceKey : Option String
  DeviceGroupKey : Option String
  deriving DecidableEq, Repr

/-- The terminal success payload of the identity service: token material plus
optional new-device metadata (spec section 3, AuthenticationResult). -/
structure AuthenticationResultType where
  AccessToken : Option String
  IdToken : Option String
  RefreshToken : Option String
  NewDeviceMetadata : Option NewDeviceMetadataType
  deriving DecidableEq, Repr

/-- Shape of an `initiateAuth` / `respondToAuthChallenge` response (spec
section 6): either a terminal `AuthenticationResult` or a challenge triple. -/
structure AuthResponse where
  ChallengeName : Option String
  ChallengeParameters : Option (List (String × String))
  Session : Option String
  AuthenticationResult : Option AuthenticationResultType
  deriving DecidableEq, Repr

/-- The Cognito user-pool configuration required by the token provider. -/
structure CognitoConfig where
  userPoolId : String
  userPoolClientId : String
  deriving DecidableEq, Repr

/-- Modelled from the spec: `assertTokenProviderConfig` (imported from
aws-amplify core, not under src/) checks the identity-provider configuration
is present and well-formed; absence is a fatal configuration error (spec
section 4.1 step 1). -/
def validTokenProviderConfig : Option CognitoConfig → Bool
  | none => false
  | some c => !(c.userPoolId = "") && !(c.userPoolClientId = "")

/-- Diagnostic metadata of a sign-in attempt, immutable for the attempt. -/
structure CognitoAuthSignInDetails where
  loginId : String
  authFlowType : String
  deriving DecidableEq, Repr

/-- The process-wide single-slot Active Sign-In State (spec section 2 and
section 3, SignInAttempt); empty slots are all-`none`. -/
structure SignInStoreState where
  signInSession : Option String
  username : Option String
  challengeName : Option String
  signInDetails : Option CognitoAuthSignInDetails
  deriving DecidableEq, Repr

/-- The empty Active Sign-In State. -/
def emptySignInState : SignInStoreState := ⟨none, none, none, none⟩

/-- Modelled from the spec: `cleanActiveSignInState` (signInStore, not under
src/) clears the single-slot store. -/
def cleanActiveSignInState (_s : SignInStoreState) : SignInStoreState :=
  emptySignInState

/-- Modelled from the spec: `setActiveSignInState` (signInStore, not under
src/) overwrites the full slot atomically (spec section 5). -/
def setActiveSignInState (n : SignInStoreState) (_s : SignInStoreState) :
    SignInStoreState := n

/-- Modelled from the spec: `getActiveSignInUsername` (signInHelpers, not
under src/) resolves the username of the current attempt; per spec section
4.1 step 5 the state afterward holds the username of the attempt. -/
def getActiveSignInUsername (username : String) : String := username

/-- Modelled from the spec: `getNewDeviceMetatada` (signInHelpers, not under
src/) derives at most one DeviceMetadata record from the NewDeviceMetadata of
one AuthenticationResult (spec section 3, DeviceMetadata). -/
def getNewDeviceMetatada (_userPoolId : String)
    (ndm : Option NewDeviceMetadataType) (_accessToken : Option String) :
    Option NewDeviceMetadataType := ndm

/-- Caller-facing next-step tags of the sign-in flow. -/
inductive AuthSignInStep
  | DONE
  | CONFIRM_SIGN_IN_WITH_SMS_CODE
  | CONFIRM_SIGN_IN_WITH_TOTP_CODE
  | CONTINUE_SIGN_IN_WITH_MFA_SELECTION
  | CONFIRM_SIGN_IN_WITH_NEW_PASSWORD_REQUIRED
  | CONFIRM_SIGN_IN_WITH_CUSTOM_CHALLENGE
  | CONFIRM_SIGN_IN_WITH_PASSWORD_VERIFIER
  | CONFIRM_SIGN_IN_WITH_DEVICE_VERIFICATION
  | RESET_PASSWORD
  | CONFIRM_SIGN_UP
  deriving DecidableEq, Repr

/-- Modelled from the spec: the static Challenge-to-Next-Step Mapping (spec
section 4.4; the registry lives in signInHelpers, not under src/). Supported
identifiers are exactly the password-verification SRP step, new-password
requirement, SMS and software-token MFA, MFA-type selection, device SRP
verification and the custom challenge; anything else yields `none`. -/
def challengeToNextStep : String → Option AuthSignInStep
  | "PASSWORD_VERIFIER" => some .CONFIRM_SIGN_IN_WITH_PASSWORD_VERIFIER
  | "NEW_PASSWORD_REQUIRED" => some .CONFIRM_SIGN_IN_WITH_NEW_PASSWORD_REQUIRED
  | "SMS_MFA" => some .CONFIRM_SIGN_IN_WITH_SMS_CODE
  | "SOFTWARE_TOKEN_MFA" => some .CONFIRM_SIGN_IN_WITH_TOTP_CODE
  | "SELECT_MFA_TYPE" => some .CONTINUE_SIGN_IN_WITH_MFA_SELECTION
  | "DEVICE_SRP_AUTH" => some .CONFIRM_SIGN_IN_WITH_DEVICE_VERIFICATION
  | "CUSTOM_CHALLENGE" => some .CONFIRM_SIGN_IN_WITH_CUSTOM_CHALLENGE
  | _ => none

/-- Modelled from the spec: per challenge, the subset of ChallengeParameters
keys that are safe to expose to the caller (spec section 4.4). -/
def safeParameterKeys : String → List String
  | "SMS_MFA" => ["CODE_DELIVERY_DELIVERY_MEDIUM", "CODE_DELIVERY_DESTINATION"]
  | "SELECT_MFA_TYPE" => ["MFAS_CAN_CHOOSE"]
  | "NEW_PASSWORD_REQUIRED" => ["requiredAttributes", "userAttributes"]
  | _ => []

/-- Keep only the pairs whose key is in the allowed list. -/
def filterParameterKeys (allowed : List String)
    (ps : List (String × String)) : List (String × String) :=
  ps.filter (fun p => allowed.contains p.1)

/-- A caller-facing next step: the tag plus the safe challenge parameters. -/
structure SignInNextStep where
  signInStep : AuthSignInStep
  additionalInfo : List (String × String)
  deriving DecidableEq, Repr

/-- The discriminated result of a sign-in entry point (spec section 4.1). -/
structure AuthSignInOutput where
  isSignedIn : Bool
  nextStep : SignInNextStep
  deriving DecidableEq, Repr

/-- The reported fatal error raised on a protocol violation: an unrecognized
challenge identifier or a response with neither tokens nor a valid challenge
(spec section 7, case f). -/
def unexpectedSignInError : SrvError :=
  ⟨"UnexpectedSignInInterruptionException",
   "the response carried neither tokens nor a recognized challenge"⟩

/-- Modelled from the spec: `getSignInResult` (signInHelpers, not under src/)
maps a recognized challenge to its continuation result via the static mapping
of spec section 4.4 and raises the reported fatal protocol-violation error on
an unrecognized or absent challenge (spec sections 4.4 and 7 case f). -/
def getSignInResult (challengeName : Option String)
    (challengeParameters : Option (List (String × String))) :
    Except SrvError AuthSignInOutput :=
  match challengeName with
  | none => .error unexpectedSignInError
  | some c =>
    match challengeToNextStep c with
    | some step =>
        .ok ⟨false,
          ⟨step, filterParameterKeys (safeParameterKeys c)
            (challengeParameters.getD [])⟩⟩
    | none => .error unexpectedSignInError

/-- Modelled from the spec: `getSignInResultFromError` (signInHelpers, not
under src/) maps the small closed set of recognized benign error names to
continuation results; every other name yields `none` and the error
propagates unchanged (spec section 4.1 step 6 and section 7 case d). -/
def getSignInResultFromError : String → Option AuthSignInOutput
  | "PasswordResetRequiredException" =>
      some ⟨false, ⟨.RESET_PASSWORD, []⟩⟩
  | "UserNotConfirmedException" =>
      some ⟨false, ⟨.CONFIRM_SIGN_UP, []⟩⟩
  | _ => none

/-- Validation error codes of the sign-in entry points. -/
inductive AuthValidationErrorCode
  | EmptySignInUsername
  | EmptySignInPassword
  deriving DecidableEq, Repr

/-- The ways a sign-in entry point can fail. -/
inductive AuthFailure
  | validation (code : AuthValidationErrorCode)
  | tokenConfig
  | service (e : SrvError)
  deriving DecidableEq, Repr

/-- Trace of one run of the Retry Wrapper: the final result, how many times
the wrapped request-building function was invoked, and whether the stale
device context was cleared. -/
structure RetryTrace (α : Type) where
  result : Except SrvError α
  attempts : Nat
  deviceContextCleared : Bool
  deriving Repr

/-- Modelled from the spec: the Retry Wrapper `retryOnResourceNotFoundException`
(signInHelpers, not under src/; spec section 4.3). The oracle `attempt n`
gives the outcome of invocation number `n` of the wrapped function; the
invocation after the clear is `attempt 1`. On a first failure with the
resource-not-found error name the stale device context is cleared and the
function is invoked exactly once more; its outcome, success or failure, is
final, and no third invocation is made. -/
def retryOnResourceNotFoundException {α : Type}
    (attempt : Nat → Except SrvError α) : RetryTrace α :=
  match attempt 0 with
  | .ok a => ⟨.ok a, 1, false⟩
  | .error e =>
    if e.name = "ResourceNotFoundException" then ⟨attempt 1, 2, true⟩
    else ⟨.error e, 1, false⟩

/-- Arguments of one invocation of the Token Cache Handoff
(`cacheCognitoTokens`): the token bundle, the resolved username, the derived
device metadata and the sign-in details. -/
structure CacheArgs where
  AccessToken : Option String
  IdToken : Option String
  RefreshToken : Option String
  username : String
  NewDeviceMetadata : Option NewDeviceMetadataType
  signInDetails : CognitoAuthSignInDetails
  deriving DecidableEq, Repr

/-- Observable outcome of one sign-in entry-point call: the returned value or
raised failure, the Active Sign-In State after the call, the list of Token
Cache Handoff invocations, the number of network attempts issued, and the
number of signedIn Hub events emitted. -/
structure SignInOutcome where
  result : Except AuthFailure AuthSignInOutput
  store : SignInStoreState
  cacheCalls : List CacheArgs
  networkAttempts : Nat
  hubSignedInEvents : Nat
  deriving Repr

/-- Input of a sign-in entry point. -/
structure SignInInput where
  username : String
  password : String
  clientMetadata : Option (List (String × String))
  deriving DecidableEq, Repr

/-- The shared try/catch body of both entry points (signInWithUserPassword.ts
lines 69-127 and part_002 lines 72-132), given the already-resolved outcome
`r` of the (possibly retried) flow function and the number `attempts` of
network attempts that produced it. On success the full state slot is set; a
terminal AuthenticationResult triggers exactly one cache handoff, a state
clear, one Hub event and the DONE result; otherwise getSignInResult maps the
challenge. Any error reaches the catch block: the state is cleared, then the
error name is classified by getSignInResultFromError and either a benign
continuation result is returned or the error is rethrown. -/
def signInTryCatch (username : String)
    (signInDetails : CognitoAuthSignInDetails) (userPoolId : String)
    (store0 : SignInStoreState) (r : Except SrvError AuthResponse)
    (attempts : Nat) : SignInOutcome :=
  match r with
  | .error e =>
    match getSignInResultFromError e.name with
    | some res => ⟨.ok res, cleanActiveSignInState store0, [], attempts, 0⟩
    | none => ⟨.error (.service e), cleanActiveSignInState store0, [],
        attempts, 0⟩
  | .ok resp =>
    let activeUsername := getActiveSignInUsername username
    let store1 := setActiveSignInState
      ⟨resp.Session, some activeUsername, resp.ChallengeName,
       some signInDetails⟩ store0
    match resp.AuthenticationResult with
    | some ar =>
      let cacheArgs : CacheArgs :=
        ⟨ar.AccessToken, ar.IdToken, ar.RefreshToken, activeUsername,
         getNewDeviceMetatada userPoolId ar.NewDeviceMetadata ar.AccessToken,
         signInDetails⟩
      ⟨.ok ⟨true, ⟨.DONE, []⟩⟩, cleanActiveSignInState store1, [cacheArgs],
       attempts, 1⟩
    | none =>
      match getSignInResult resp.ChallengeName resp.ChallengeParameters with
      | .ok res => ⟨.ok res, store1, [], attempts, 0⟩
      | .error e =>
        match getSignInResultFromError e.name with
        | some res => ⟨.ok res, cleanActiveSignInState store1, [], attempts, 0⟩
        | none => ⟨.error (.service e), cleanActiveSignInState store1, [],
            attempts, 0⟩

/-- Embedding of `signInWithUserPassword`
(src/packages/auth/src/providers/cognito/apis/signInWithUserPassword.ts).
The config assertion comes first (line 58), then the empty-username and
empty-password validations (lines 60-67; JS truthiness of a string is
non-emptiness), then the initial request through the Retry Wrapper (lines
69-80) and the shared try/catch body. -/
def signInWithUserPassword (input : SignInInput)
    (authConfig : Option CognitoConfig)
    (attempt : Nat → Except SrvError AuthResponse)
    (store0 : SignInStoreState) : SignInOutcome :=
  let signInDetails : CognitoAuthSignInDetails :=
    ⟨input.username, "USER_PASSWORD_AUTH"⟩
  if validTokenProviderConfig authConfig then
    if input.username = "" then
      ⟨.error (.validation .EmptySignInUsername), store0, [], 0, 0⟩
    else if input.password = "" then
      ⟨.error (.validation .EmptySignInPassword), store0, [], 0, 0⟩
    else
      let t := retryOnResourceNotFoundException attempt
      signInTryCatch input.username signInDetails
        ((authConfig.getD ⟨"", ""⟩).userPoolId) store0 t.result t.attempts
  else ⟨.error .tokenConfig, store0, [], 0, 0⟩

/-- Embedding of `signInWithCustomSRPAuth` (src/unnamed/part_002). Identical
shape except the flow function `handleCustomSRPAuthFlow` is invoked directly,
exactly once (lines 78-84); `flow` is its resolved outcome. -/
def signInWithCustomSRPAuth (input : SignInInput)
    (authConfig : Option CognitoConfig)
    (flow : Except SrvError AuthResponse)
    (store0 : SignInStoreState) : SignInOutcome :=
  let signInDetails : CognitoAuthSignInDetails :=
    ⟨input.username, "CUSTOM_WITH_SRP"⟩
  if validTokenProviderConfig authConfig then
    if input.username = "" then
      ⟨.error (.validation .EmptySignInUsername), store0, [], 0, 0⟩
    else if input.password = "" then
      ⟨.error (.validation .EmptySignInPassword), store0, [], 0, 0⟩
    else
      signInTryCatch input.username signInDetails
        ((authConfig.getD ⟨"", ""⟩).userPoolId) store0 flow 1
  else ⟨.error .tokenConfig, store0, [], 0, 0⟩

/-- Input of `resetPassword` (src/unnamed/part_001). -/
structure ResetPasswordRequest where
  username : String
  clientMetadata : Option (List (String × String))
  deriving DecidableEq, Repr

/-- Code-delivery details of a ForgotPassword response; every field is
optional on the wire. -/
structure CodeDeliveryDetailsType where
  DeliveryMedium : Option String
  Destination : Option String
  AttributeName : Option String
  deriving DecidableEq, Repr

/-- Resolved output of the `resetPasswordClient` network call. -/
structure ForgotPasswordOutput where
  CodeDeliveryDetails : Option CodeDeliveryDetailsType
  deriving DecidableEq, Repr

/-- Next-step tags of the reset-password flow. -/
inductive AuthResetPasswordStep
  | CONFIRM_RESET_PASSWORD_WITH_CODE
  | DONE
  deriving DecidableEq, Repr

/-- Result of `resetPassword`, with the code-delivery fields flattened; the
source casts possibly-undefined fields, modelled as Options. -/
structure ResetPasswordResult where
  isPasswordReset : Bool
  resetPasswordStep : AuthResetPasswordStep
  deliveryMedium : Option String
  destination : Option String
  attributeName : Option String
  deriving DecidableEq, Repr

/-- Observable outcome of one `resetPassword` call: the returned value and
how many `resetPasswordClient` network calls were issued. -/
structure ResetPasswordOutcome where
  result : ResetPasswordResult
  clientCalls : Nat
  deriving DecidableEq, Repr

/-- Embedding of `resetPassword` (src/unnamed/part_001 lines 19-45). The
empty-username branch (lines 23-25) has an empty TODO body and performs
nothing; the client is then called unconditionally and the result is always
`isPasswordReset: false` with the confirm-with-code step. `clientResponse`
is the resolved output of the single `resetPasswordClient` call. -/
def resetPassword (req : ResetPasswordRequest)
    (clientResponse : ForgotPasswordOutput) : ResetPasswordOutcome :=
  let _unusedEmptyCheck := req.username = ""
  let cdd := clientResponse.CodeDeliveryDetails
  ⟨⟨false, .CONFIRM_RESET_PASSWORD_WITH_CODE,
    cdd.bind (fun c => c.DeliveryMedium),
    cdd.bind (fun c => c.Destination),
    cdd.bind (fun c => c.AttributeName)⟩, 1⟩

/-- Modelled from the spec: the digest step of the Crypto Engine (spec
sections 2 and 4.2; the engine is not under src/), abstracted as an injective
pairing of naturals. -/
def srpHash (a b : Nat) : Nat := Nat.pair a b

/-- Modelled from the spec: the secure-remote-password proof computation of
the Crypto Engine (spec section 4.2; the engine is not under src/). All
values are large unsigned integers in the fixed modulus group of `N` with
generator `g`; from the password, the salt, the client ephemeral secret `a`,
the server public ephemeral `B` and the secret block, it derives the client
public ephemeral, the scrambling value, the password-derived key, the shared
session key and finally the proof, via modular exponentiation and the
modelled digest. -/
def srpProof (N g password salt a B secretBlock : Nat) : Nat :=
  let A := g ^ a % N
  let u := srpHash (A % N) (B % N)
  let x := srpHash salt password
  let k := srpHash N g
  let gx := g ^ x % N
  let base := (B + N * N - k % N * gx) % N
  let S := base ^ (a + u * x) % N
  srpHash S secretBlock

/-- Sample well-formed Cognito configuration, used by witnesses. -/
def sampleConfig : Option CognitoConfig := some ⟨"us-east-1_pool", "clientid"⟩

/-- Sample terminal token bundle, used by witnesses. -/
def sampleAr : AuthenticationResultType :=
  ⟨some "access", some "id", some "refresh", none⟩

/-- Sample terminal success response, used by witnesses. -/
def sampleSuccessResp : AuthResponse := ⟨none, none, none, some sampleAr⟩

/-- Sample SMS-MFA challenge response, used by witnesses. -/
def sampleChallengeResp : AuthResponse :=
  ⟨some "SMS_MFA", some [("CODE_DELIVERY_DESTINATION", "+*******99")],
   some "sess-1", none⟩

/-- Sample well-formed sign-in input, used by witnesses. -/
def sampleInput : SignInInput := ⟨"alice", "Passw0rd", none⟩

/-- Sample unrecognized service error, used by witnesses. -/
def sampleOtherError : SrvError := ⟨"NotAuthorizedException", "bad password"⟩

/-- Sample resource-not-found error, used by witnesses. -/
def sampleRnfError : SrvError :=
  ⟨"ResourceNotFoundException", "Device does not exist."⟩

/-- Unfolding lemma: past a valid configuration and non-empty credentials,
signInWithUserPassword is the shared try/catch body applied to the trace of
the Retry Wrapper. -/
theorem signInWithUserPassword_try (input : SignInInput)
    (cfg : Option CognitoConfig) (attempt : Nat → Except SrvError AuthResponse)
    (store0 : SignInStoreState)
    (hc : validTokenProviderConfig cfg = true)
    (hu : ¬ input.username = "") (hp : ¬ input.password = "") :
    signInWithUserPassword input cfg attempt store0 =
      signInTryCatch input.username ⟨input.username, "USER_PASSWORD_AUTH"⟩
        ((cfg.getD ⟨"", ""⟩).userPoolId) store0
        (retryOnResourceNotFoundException attempt).result
        (retryOnResourceNotFoundException attempt).attempts := by
  simp [signInWithUserPassword, hc, hu, hp]

/-- Unfolding lemma: past a valid configuration and non-empty credentials,
signInWithCustomSRPAuth is the shared try/catch body applied to the resolved
outcome of the single flow invocation. -/
theorem signInWithCustomSRPAuth_try (input : SignInInput)
    (cfg : Option CognitoConfig) (flow : Except SrvError AuthResponse)
    (store0 : SignInStoreState)
    (hc : validTokenProviderConfig cfg = true)
    (hu : ¬ input.username = "") (hp : ¬ input.password = "") :
    signInWithCustomSRPAuth input cfg flow store0 =
      signInTryCatch input.username ⟨input.username, "CUSTOM_WITH_SRP"⟩
        ((cfg.getD ⟨"", ""⟩).userPoolId) store0 flow 1 := by
  simp [signInWithCustomSRPAuth, hc, hu, hp]

/-- Success-path lemma: a response carrying AuthenticationResult yields the
DONE result, one cache handoff with the returned tokens, a cleared state and
one Hub event. -/
theorem signInTryCatch_authResult (username : String)
    (d : CognitoAuthSignInDetails) (pid : String) (s0 : SignInStoreState)
    (resp : AuthResponse) (ar : AuthenticationResultType) (n : Nat)
    (har : resp.AuthenticationResult = some ar) :
    signInTryCatch username d pid s0 (.ok resp) n =
      ⟨.ok ⟨true, ⟨.DONE, []⟩⟩, emptySignInState,
       [⟨ar.AccessToken, ar.IdToken, ar.RefreshToken, username,
         ar.NewDeviceMetadata, d⟩], n, 1⟩ := by
  simp [signInTryCatch, har, cleanActiveSignInState, setActiveSignInState,
    getActiveSignInUsername, getNewDeviceMetatada]

/-- Challenge-path lemma: a recognized challenge yields the mapped
continuation result and leaves the state slot holding session, username,
challenge and details. -/
theorem signInTryCatch_challenge (username : String)
    (d : CognitoAuthSignInDetails) (pid : String) (s0 : SignInStoreState)
    (resp : AuthResponse) (c : String) (step : AuthSignInStep) (n : Nat)
    (har : resp.AuthenticationResult = none)
    (hcn : resp.ChallengeName = some c)
    (hstep : challengeToNextStep c = some step) :
    signInTryCatch username d pid s0 (.ok resp) n =
      ⟨.ok ⟨false, ⟨step, filterParameterKeys (safeParameterKeys c)
          (resp.ChallengeParameters.getD [])⟩⟩,
       ⟨resp.Session, some username, resp.ChallengeName, some d⟩,
       [], n, 0⟩ := by
  simp [signInTryCatch, har, hcn, getSignInResult, hstep,
    setActiveSignInState, getActiveSignInUsername]

/-- Catch-path lemma, benign name: a flow error whose name is in the
recognized set returns the mapped continuation result with a cleared state. -/
theorem signInTryCatch_error_benign (username : String)
    (d : CognitoAuthSignInDetails) (pid : String) (s0 : SignInStoreState)
    (e : SrvError) (n : Nat) (res : AuthSignInOutput)
    (hb : getSignInResultFromError e.name = some res) :
    signInTryCatch username d pid s0 (.error e) n =
      ⟨.ok res, emptySignInState, [], n, 0⟩ := by
  simp [signInTryCatch, hb, cleanActiveSignInState]

/-- Catch-path lemma, unrecognized name: any other flow error propagates
unchanged with a cleared state. -/
theorem signInTryCatch_error_other (username : String)
    (d : CognitoAuthSignInDetails) (pid : String) (s0 : SignInStoreState)
    (e : SrvError) (n : Nat)
    (hb : getSignInResultFromError e.name = none) :
    signInTryCatch username d pid s0 (.error e) n =
      ⟨.error (.service e), emptySignInState, [], n, 0⟩ := by
  simp [signInTryCatch, hb, cleanActiveSignInState]

/-- C1: for every call to signInWithUserPassword or signInWithCustomSRPAuth
whose (possibly retried) initial request resolves with a response carrying
AuthenticationResult, the function returns exactly isSignedIn true with next
step DONE, the token cache handoff is invoked exactly once with the returned
tokens, and the Active Sign-In State is empty after the call returns. -/
theorem signIn_authResult_done_cache_once_state_empty (input : SignInInput)
    (cfg : Option CognitoConfig)
    (attempt : Nat → Except SrvError AuthResponse)
    (store0 : SignInStoreState) (resp : AuthResponse)
    (ar : AuthenticationResultType)
    (hc : validTokenProviderConfig cfg = true)
    (hu : ¬ input.username = "") (hp : ¬ input.password = "")
    (har : resp.AuthenticationResult = some ar)
    (hr : (retryOnResourceNotFoundException attempt).result = .ok resp) :
    (signInWithUserPassword input cfg attempt store0).result =
        .ok ⟨true, ⟨.DONE, []⟩⟩ ∧
    (signInWithUserPassword input cfg attempt store0).cacheCalls =
        [⟨ar.AccessToken, ar.IdToken, ar.RefreshToken, input.username,
          ar.NewDeviceMetadata, ⟨input.username, "USER_PASSWORD_AUTH"⟩⟩] ∧
    (signInWithUserPassword input cfg attempt store0).store =
        emptySignInState ∧
    (signInWithCustomSRPAuth input cfg (.ok resp) store0).result =
        .ok ⟨true, ⟨.DONE, []⟩⟩ ∧
    (signInWithCustomSRPAuth input cfg (.ok resp) store0).cacheCalls =
        [⟨ar.AccessToken, ar.IdToken, ar.RefreshToken, input.username,
          ar.NewDeviceMetadata, ⟨input.username, "CUSTOM_WITH_SRP"⟩⟩] ∧
    (signInWithCustomSRPAuth input cfg (.ok resp) store0).store =
        emptySignInState := by
  rw [signInWithUserPassword_try input cfg attempt store0 hc hu hp, hr,
    signInWithCustomSRPAuth_try input cfg (.ok resp) store0 hc hu hp,
    signInTryCatch_authResult _ _ _ _ _ _ _ har,
    signInTryCatch_authResult _ _ _ _ _ _ _ har]
  exact ⟨rfl, rfl, rfl, rfl, rfl, rfl⟩

/-- C1 witness: the theorem applied to a concrete successful run. -/
theorem signIn_authResult_done_cache_once_state_empty_witness :
    (signInWithUserPassword sampleInput sampleConfig
        (fun _ => .ok sampleSuccessResp) emptySignInState).result =
      .ok ⟨true, ⟨.DONE, []⟩⟩ ∧
    (signInWithUserPassword sampleInput sampleConfig
        (fun _ => .ok sampleSuccessResp) emptySignInState).store =
      emptySignInState :=
  have h := signIn_authResult_done_cache_once_state_empty sampleInput
    sampleConfig (fun _ => .ok sampleSuccessResp) emptySignInState
    sampleSuccessResp sampleAr (by decide) (by decide) (by decide) rfl rfl
  ⟨h.1, h.2.2.1⟩

/-- C2: for every call whose initial request resolves with a recognized
ChallengeName and no AuthenticationResult, the returned result has
isSignedIn false and a next step equal to the static challenge-to-next-step
mapping for that name, and afterward the Active Sign-In State holds the
returned Session token and the username of the attempt. -/
theorem signIn_challenge_maps_next_step_and_state (input : SignInInput)
    (cfg : Option CognitoConfig)
    (attempt : Nat → Except SrvError AuthResponse)
    (store0 : SignInStoreState) (resp : AuthResponse) (c : String)
    (step : AuthSignInStep)
    (hc : validTokenProviderConfig cfg = true)
    (hu : ¬ input.username = "") (hp : ¬ input.password = "")
    (har : resp.AuthenticationResult = none)
    (hcn : resp.ChallengeName = some c)
    (hstep : challengeToNextStep c = some step)
    (hr : (retryOnResourceNotFoundException attempt).result = .ok resp) :
    (signInWithUserPassword input cfg attempt store0).result =
        .ok ⟨false, ⟨step, filterParameterKeys (safeParameterKeys c)
          (resp.ChallengeParameters.getD [])⟩⟩ ∧
    (signInWithUserPassword input cfg attempt store0).store.signInSession =
        resp.Session ∧
    (signInWithUserPassword input cfg attempt store0).store.username =
        some input.username ∧
    (signInWithCustomSRPAuth input cfg (.ok resp) store0).result =
        .ok ⟨false, ⟨step, filterParameterKeys (safeParameterKeys c)
          (resp.ChallengeParameters.getD [])⟩⟩ ∧
    (signInWithCustomSRPAuth input cfg (.ok resp) store0).store.signInSession =
        resp.Session ∧
    (signInWithCustomSRPAuth input cfg (.ok resp) store0).store.username =
        some input.username := by
  rw [signInWithUserPassword_try input cfg attempt store0 hc hu hp, hr,
    signInWithCustomSRPAuth_try input cfg (.ok resp) store0 hc hu hp,
    signInTryCatch_challenge _ _ _ _ _ _ _ _ har hcn hstep,
    signInTryCatch_challenge _ _ _ _ _ _ _ _ har hcn hstep]
  exact ⟨rfl, rfl, rfl, rfl, rfl, rfl⟩

/-- C2 witness: the theorem applied to a concrete SMS-MFA challenge run. -/
theorem signIn_challenge_maps_next_step_and_state_witness :
    (signInWithUserPassword sampleInput sampleConfig
        (fun _ => .ok sampleChallengeResp) emptySignInState).result =
      .ok ⟨false, ⟨.CONFIRM_SIGN_IN_WITH_SMS_CODE,
        [("CODE_DELIVERY_DESTINATION", "+*******99")]⟩⟩ ∧
    (signInWithUserPassword sampleInput sampleConfig
        (fun _ => .ok sampleChallengeResp) emptySignInState).store.username =
      some "alice" :=
  have h := signIn_challenge_maps_next_step_and_state sampleInput sampleConfig
    (fun _ => .ok sampleChallengeResp) emptySignInState sampleChallengeResp
    "SMS_MFA" .CONFIRM_SIGN_IN_WITH_SMS_CODE (by decide) (by decide)
    (by decide) rfl rfl rfl rfl
  ⟨h.1, h.2.2.1⟩

/-- C3: for every input with an empty username or an empty password, both
entry points fail with the validation error naming the empty field, the
username check coming first, and issue no network call. -/
theorem signIn_empty_field_validation_no_network (input : SignInInput)
    (cfg : Option CognitoConfig)
    (attempt : Nat → Except SrvError AuthResponse)
    (flow : Except SrvError AuthResponse) (store0 : SignInStoreState)
    (hc : validTokenProviderConfig cfg = true)
    (hempty : input.username = "" ∨ input.password = "") :
    (signInWithUserPassword input cfg attempt store0).result =
        .error (.validation (if input.username = "" then .EmptySignInUsername
          else .EmptySignInPassword)) ∧
    (signInWithUserPassword input cfg attempt store0).networkAttempts = 0 ∧
    (signInWithCustomSRPAuth input cfg flow store0).result =
        .error (.validation (if input.username = "" then .EmptySignInUsername
          else .EmptySignInPassword)) ∧
    (signInWithCustomSRPAuth input cfg flow store0).networkAttempts = 0 := by
  by_cases hu : input.username = ""
  · simp [signInWithUserPassword, signInWithCustomSRPAuth, hc, hu]
  · have hp : input.password = "" := hempty.resolve_left hu
    simp [signInWithUserPassword, signInWithCustomSRPAuth, hc, hu, hp]

/-- C3 witness: the theorem applied to a concrete empty-password input. -/
theorem signIn_empty_field_validation_no_network_witness :
    (signInWithUserPassword ⟨"alice", "", none⟩ sampleConfig
        (fun _ => .ok sampleSuccessResp) emptySignInState).result =
      .error (.validation .EmptySignInPassword) ∧
    (signInWithUserPassword ⟨"alice", "", none⟩ sampleConfig
        (fun _ => .ok sampleSuccessResp) emptySignInState).networkAttempts =
      0 :=
  have h := signIn_empty_field_validation_no_network ⟨"alice", "", none⟩
    sampleConfig (fun _ => .ok sampleSuccessResp) (.ok sampleSuccessResp)
    emptySignInState (by decide) (Or.inr rfl)
  ⟨by simpa using h.1, h.2.1⟩

/-- C4: if the first invocation of the wrapped request-building function
fails with the resource-not-found error name, the stale device context is
cleared and the function is invoked exactly one more time; a second success
is returned indistinguishably from a first-attempt success, a second failure
is the error propagated, and no execution makes a third invocation. -/
theorem retry_clears_context_and_retries_exactly_once
    (attempt : Nat → Except SrvError AuthResponse) (e : SrvError)
    (h0 : attempt 0 = .error e)
    (hname : e.name = "ResourceNotFoundException") :
    (retryOnResourceNotFoundException attempt).deviceContextCleared = true ∧
    (retryOnResourceNotFoundException attempt).attempts = 2 ∧
    (retryOnResourceNotFoundException attempt).result = attempt 1 ∧
    (∀ resp : AuthResponse, attempt 1 = .ok resp →
      (retryOnResourceNotFoundException attempt).result =
        (retryOnResourceNotFoundException
          (fun _ => (.ok resp : Except SrvError AuthResponse))).result) ∧
    (∀ e2 : SrvError, attempt 1 = .error e2 →
      (retryOnResourceNotFoundException attempt).result = .error e2) ∧
    (∀ g : Nat → Except SrvError AuthResponse,
      (retryOnResourceNotFoundException g).attempts ≤ 2) := by
  refine ⟨?_, ?_, ?_, ?_, ?_, ?_⟩
  · simp [retryOnResourceNotFoundException, h0, hname]
  · simp [retryOnResourceNotFoundException, h0, hname]
  · simp [retryOnResourceNotFoundException, h0, hname]
  · intro resp h1
    simp [retryOnResourceNotFoundException, h0, hname, h1]
  · intro e2 h1
    simp [retryOnResourceNotFoundException, h0, hname, h1]
  · intro g
    unfold retryOnResourceNotFoundException
    cases g 0 with
    | ok a => simp
    | error e3 =>
      by_cases hn : e3.name = "ResourceNotFoundException"
      · simp [hn]
      · simp [hn]

/-- C4 witness: the theorem applied to a run whose first attempt fails with
the resource-not-found name and whose second attempt succeeds. -/
theorem retry_clears_context_and_retries_exactly_once_witness :
    (retryOnResourceNotFoundException
      (fun n => if n = 0 then .error sampleRnfError
        else .ok sampleSuccessResp)).attempts = 2 ∧
    (retryOnResourceNotFoundException
      (fun n => if n = 0 then .error sampleRnfError
        else .ok sampleSuccessResp)).result = .ok sampleSuccessResp ∧
    (retryOnResourceNotFoundException
      (fun n => if n = 0 then .error sampleRnfError
        else .ok sampleSuccessResp)).deviceContextCleared = true :=
  have h := retry_clears_context_and_retries_exactly_once
    (fun n => if n = 0 then .error sampleRnfError else .ok sampleSuccessResp)
    sampleRnfError rfl rfl
  ⟨h.2.1, h.2.2.1, h.1⟩

/-- C6: for every service-level error raised during the request/response
exchange, the orchestrator classifies the error by its name: a name in the
recognized benign set returns the corresponding continuation result instead
of throwing, and every other name is propagated to the caller unchanged. -/
theorem signIn_service_error_classified_by_name (input : SignInInput)
    (cfg : Option CognitoConfig)
    (attempt : Nat → Except SrvError AuthResponse)
    (store0 : SignInStoreState) (e : SrvError)
    (hc : validTokenProviderConfig cfg = true)
    (hu : ¬ input.username = "") (hp : ¬ input.password = "")
    (hr : (retryOnResourceNotFoundException attempt).result = .error e) :
    (∀ res : AuthSignInOutput, getSignInResultFromError e.name = some res →
      (signInWithUserPassword input cfg attempt store0).result = .ok res ∧
      (signInWithCustomSRPAuth input cfg (.error e) store0).result =
        .ok res) ∧
    (getSignInResultFromError e.name = none →
      (signInWithUserPassword input cfg attempt store0).result =
        .error (.service e) ∧
      (signInWithCustomSRPAuth input cfg (.error e) store0).result =
        .error (.service e)) := by
  rw [signInWithUserPassword_try input cfg attempt store0 hc hu hp, hr,
    signInWithCustomSRPAuth_try input cfg (.error e) store0 hc hu hp]
  constructor
  · intro res hb
    rw [signInTryCatch_error_benign _ _ _ _ _ _ _ hb,
      signInTryCatch_error_benign _ _ _ _ _ _ _ hb]
    exact ⟨rfl, rfl⟩
  · intro hb
    rw [signInTryCatch_error_other _ _ _ _ _ _ hb,
      signInTryCatch_error_other _ _ _ _ _ _ hb]
    exact ⟨rfl, rfl⟩

/-- C6 witness: the theorem applied to a run failing with the recognized
password-reset-required name, which returns the benign continuation. -/
theorem signIn_service_error_classified_by_name_witness :
    (signInWithUserPassword sampleInput sampleConfig
      (fun _ => .error ⟨"PasswordResetRequiredException", "reset"⟩)
      emptySignInState).result =
    .ok ⟨false, ⟨.RESET_PASSWORD, []⟩⟩ :=
  have h := signIn_service_error_classified_by_name sampleInput sampleConfig
    (fun _ => .error ⟨"PasswordResetRequiredException", "reset"⟩)
    emptySignInState ⟨"PasswordResetRequiredException", "reset"⟩
    (by decide) (by decide) (by decide) rfl
  (h.1 ⟨false, ⟨.RESET_PASSWORD, []⟩⟩ rfl).1

/-- C7: for every sign-in response carrying a challenge identifier outside
the supported set of the challenge-to-next-step mapping,
signInWithUserPassword raises the reported fatal protocol-violation error
and never returns a normal result. -/
theorem signIn_unrecognized_challenge_fatal (input : SignInInput)
    (cfg : Option CognitoConfig)
    (attempt : Nat → Except SrvError AuthResponse)
    (store0 : SignInStoreState) (resp : AuthResponse) (c : String)
    (hc : validTokenProviderConfig cfg = true)
    (hu : ¬ input.username = "") (hp : ¬ input.password = "")
    (hr : (retryOnResourceNotFoundException attempt).result = .ok resp)
    (har : resp.AuthenticationResult = none)
    (hcn : resp.ChallengeName = some c)
    (hunk : challengeToNextStep c = none) :
    (signInWithUserPassword input cfg attempt store0).result =
      .error (.service unexpectedSignInError) := by
  rw [signInWithUserPassword_try input cfg attempt store0 hc hu hp, hr]
  simp [signInTryCatch, har, hcn, getSignInResult, hunk,
    getSignInResultFromError, unexpectedSignInError, setActiveSignInState,
    cleanActiveSignInState, getActiveSignInUsername]

/-- C7 witness: the theorem applied to a response carrying the unsupported
challenge identifier ADMIN_NO_SRP_AUTH. -/
theorem signIn_unrecognized_challenge_fatal_witness :
    (signInWithUserPassword sampleInput sampleConfig
      (fun _ => .ok ⟨some "ADMIN_NO_SRP_AUTH", none, some "s", none⟩)
      emptySignInState).result =
    .error (.service unexpectedSignInError) :=
  signIn_unrecognized_challenge_fatal sampleInput sampleConfig
    (fun _ => .ok ⟨some "ADMIN_NO_SRP_AUTH", none, some "s", none⟩)
    emptySignInState ⟨some "ADMIN_NO_SRP_AUTH", none, some "s", none⟩
    "ADMIN_NO_SRP_AUTH" (by decide) (by decide) (by decide) rfl rfl rfl rfl

/-- Every failure produced by the try/catch body leaves the state cleared,
and such failures are always service failures. -/
theorem signInTryCatch_error_clears_state (username : String)
    (d : CognitoAuthSignInDetails) (pid : String) (s0 : SignInStoreState)
    (r : Except SrvError AuthResponse) (n : Nat) (f : AuthFailure)
    (h : (signInTryCatch username d pid s0 r n).result = .error f) :
    (signInTryCatch username d pid s0 r n).store = emptySignInState ∧
    ∃ e, f = .service e := by
  cases r with
  | error e =>
    cases hb : getSignInResultFromError e.name with
    | none =>
      rw [signInTryCatch_error_other username d pid s0 e n hb] at h ⊢
      simp at h
      exact ⟨rfl, e, h.symm⟩
    | some res =>
      rw [signInTryCatch_error_benign username d pid s0 e n res hb] at h
      simp at h
  | ok resp =>
    cases har : resp.AuthenticationResult with
    | some ar =>
      rw [signInTryCatch_authResult username d pid s0 resp ar n har] at h
      simp at h
    | none =>
      cases hg : getSignInResult resp.ChallengeName resp.ChallengeParameters
        with
      | ok res =>
        simp [signInTryCatch, har, hg] at h
      | error e =>
        cases hb : getSignInResultFromError e.name with
        | none =>
          simp only [signInTryCatch, har, hb, hg] at h ⊢
          simp [cleanActiveSignInState] at h ⊢
          exact ⟨e, h.symm⟩
        | some res =>
          simp [signInTryCatch, har, hg, hb] at h

/-- C5 counterexample: a concrete call with residual Active Sign-In State
from a prior attempt that fails with the empty-username validation error
and leaves the state untouched and non-empty, refuting that every failing
call clears the state before raising the error. -/
theorem signIn_validation_failure_keeps_state_counterexample :
    (signInWithUserPassword ⟨"", "pw", none⟩ sampleConfig
        (fun _ => .error sampleOtherError)
        ⟨some "sess", some "alice", some "SMS_MFA", none⟩).result =
      .error (.validation .EmptySignInUsername) ∧
    ¬ (signInWithUserPassword ⟨"", "pw", none⟩ sampleConfig
        (fun _ => .error sampleOtherError)
        ⟨some "sess", some "alice", some "SMS_MFA", none⟩).store =
      emptySignInState :=
  ⟨rfl, by decide⟩

/-- C5 (amended): failures raised during the request/response exchange,
that is service errors and protocol violations, which both surface as
service failures, clear the Active Sign-In State before the error is
raised; validation and configuration failures are raised before the
exchange begins and leave the Active Sign-In State unchanged. -/
theorem signIn_failure_state_clearing (input : SignInInput)
    (cfg : Option CognitoConfig)
    (attempt : Nat → Except SrvError AuthResponse)
    (flow : Except SrvError AuthResponse) (store0 : SignInStoreState) :
    (∀ e, (signInWithUserPassword input cfg attempt store0).result =
        .error (.service e) →
      (signInWithUserPassword input cfg attempt store0).store =
        emptySignInState) ∧
    (∀ e, (signInWithCustomSRPAuth input cfg flow store0).result =
        .error (.service e) →
      (signInWithCustomSRPAuth input cfg flow store0).store =
        emptySignInState) ∧
    (∀ v, (signInWithUserPassword input cfg attempt store0).result =
        .error (.validation v) →
      (signInWithUserPassword input cfg attempt store0).store = store0) ∧
    ((signInWithUserPassword input cfg attempt store0).result =
        .error .tokenConfig →
      (signInWithUserPassword input cfg attempt store0).store = store0) ∧
    (∀ v, (signInWithCustomSRPAuth input cfg flow store0).result =
        .error (.validation v) →
      (signInWithCustomSRPAuth input cfg flow store0).store = store0) ∧
    ((signInWithCustomSRPAuth input cfg flow store0).result =
        .error .tokenConfig →
      (signInWithCustomSRPAuth input cfg flow store0).store = store0) := by
  by_cases hc : validTokenProviderConfig cfg = true
  · by_cases hu : input.username = ""
    · simp [signInWithUserPassword, signInWithCustomSRPAuth, hc, hu]
    · by_cases hp : input.password = ""
      · simp [signInWithUserPassword, signInWithCustomSRPAuth, hc, hu, hp]
      · rw [signInWithUserPassword_try input cfg attempt store0 hc hu hp,
          signInWithCustomSRPAuth_try input cfg flow store0 hc hu hp]
        refine ⟨?_, ?_, ?_, ?_, ?_, ?_⟩
        · intro e h
          exact (signInTryCatch_error_clears_state _ _ _ _ _ _ _ h).1
        · intro e h
          exact (signInTryCatch_error_clears_state _ _ _ _ _ _ _ h).1
        · intro v h
          rcases (signInTryCatch_error_clears_state _ _ _ _ _ _ _ h).2 with
            ⟨e, he⟩
          simp at he
        · intro h
          rcases (signInTryCatch_error_clears_state _ _ _ _ _ _ _ h).2 with
            ⟨e, he⟩
          simp at he
        · intro v h
          rcases (signInTryCatch_error_clears_state _ _ _ _ _ _ _ h).2 with
            ⟨e, he⟩
          simp at he
        · intro h
          rcases (signInTryCatch_error_clears_state _ _ _ _ _ _ _ h).2 with
            ⟨e, he⟩
          simp at he
  · simp [signInWithUserPassword, signInWithCustomSRPAuth, hc]

/-- C5 witness for the amended statement: a concrete service-error run whose
state is cleared. -/
theorem signIn_failure_state_clearing_witness :
    (signInWithUserPassword sampleInput sampleConfig
      (fun _ => .error sampleOtherError)
      ⟨some "sess", some "alice", some "SMS_MFA", none⟩).store =
    emptySignInState :=
  (signIn_failure_state_clearing sampleInput sampleConfig
    (fun _ => .error sampleOtherError) (.error sampleOtherError)
    ⟨some "sess", some "alice", some "SMS_MFA", none⟩).1
    sampleOtherError rfl

/-- C8: the secure-remote-password proof computation is deterministic: two
computations with componentwise identical password, salt, client ephemeral
secret, server ephemeral and secret block, in the same group, yield
identical proof values. -/
theorem srpProof_deterministic (N g p1 s1 a1 B1 sb1 p2 s2 a2 B2 sb2 : Nat)
    (hp : p1 = p2) (hs : s1 = s2) (ha : a1 = a2) (hB : B1 = B2)
    (hsb : sb1 = sb2) :
    srpProof N g p1 s1 a1 B1 sb1 = srpProof N g p2 s2 a2 B2 sb2 := by
  rw [hp, hs, ha, hB, hsb]

/-- C8 witness: the theorem applied to a concrete small-group instance. -/
theorem srpProof_deterministic_witness :
    srpProof 23 5 7 3 4 9 11 = srpProof 23 5 7 3 4 9 11 :=
  srpProof_deterministic 23 5 7 3 4 9 11 7 3 4 9 11 rfl rfl rfl rfl rfl

/-- C9: in both entry points the token-provider configuration assertion is
evaluated before the empty-credential validation: with an empty username or
password and a missing or invalid configuration, the call fails with the
configuration error, not the validation error. -/
theorem signIn_config_assertion_precedes_validation (input : SignInInput)
    (cfg : Option CognitoConfig)
    (attempt : Nat → Except SrvError AuthResponse)
    (flow : Except SrvError AuthResponse) (store0 : SignInStoreState)
    (hbad : validTokenProviderConfig cfg = false)
    (_hempty : input.username = "" ∨ input.password = "") :
    (signInWithUserPassword input cfg attempt store0).result =
      .error .tokenConfig ∧
    (signInWithCustomSRPAuth input cfg flow store0).result =
      .error .tokenConfig := by
  have hc : ¬ validTokenProviderConfig cfg = true := by simp [hbad]
  simp [signInWithUserPassword, signInWithCustomSRPAuth, hc]

/-- C9 witness: the theorem applied to an absent configuration and an input
with both fields empty. -/
theorem signIn_config_assertion_precedes_validation_witness :
    (signInWithUserPassword ⟨"", "", none⟩ none
      (fun _ => .ok sampleSuccessResp) emptySignInState).result =
    .error .tokenConfig :=
  (signIn_config_assertion_precedes_validation ⟨"", "", none⟩ none
    (fun _ => .ok sampleSuccessResp) (.ok sampleSuccessResp)
    emptySignInState rfl (Or.inl rfl)).1

/-- C10: resetPassword performs no local validation of its username: every
request, even with an empty username, issues exactly one resetPasswordClient
network call, and every call whose client request resolves returns
isPasswordReset false with the confirm-reset-password-with-code step, never
isPasswordReset true. -/
theorem resetPassword_no_validation_always_confirm_step
    (req : ResetPasswordRequest) (clientResponse : ForgotPasswordOutput) :
    (resetPassword req clientResponse).clientCalls = 1 ∧
    (resetPassword req clientResponse).result.isPasswordReset = false ∧
    (resetPassword req clientResponse).result.resetPasswordStep =
      AuthResetPasswordStep.CONFIRM_RESET_PASSWORD_WITH_CODE :=
  ⟨rfl, rfl, rfl⟩

/-- C10 witness: the theorem applied to an empty username. -/
theorem resetPassword_no_validation_always_confirm_step_witness :
    (resetPassword ⟨"", none⟩ ⟨none⟩).clientCalls = 1 ∧
    (resetPassword ⟨"", none⟩ ⟨none⟩).result.isPasswordReset = false :=
  have h := resetPassword_no_validation_always_confirm_step ⟨"", none⟩ ⟨none⟩
  ⟨h.1, h.2.1⟩
